import Mathlib

/-!
Verification of the CTU CAN FD register map header
(`driver/ctu_can_fd_regs.h`).

The header is a generated data dictionary: a memory-map enumeration of
byte offsets, one C union per 32-bit register word (a raw `u32` member
aliased with a bitfield struct, given once in little-endian bitfield
order and once in big-endian bitfield order), and value enumerations
for selected fields.  We embed the tables verbatim and prove the
structural properties the specification states about them.
-/

set_option maxHeartbeats 2000000

namespace CtuCanFd

/-- A single C bitfield member: its identifier and its declared bit width. -/
structure Field where
  name : String
  width : Nat
deriving DecidableEq

/-- A field is a reserved-padding field exactly when its identifier starts
with `reserved` (the naming convention of the generated header). -/
def Field.isReserved (f : Field) : Bool :=
  f.name.data.take 8 == "reserved".data

/-- One register union of the header: its C identifier, the byte offset of
the 32-bit word it describes (the offset of its first packed register in
the memory map), whether its body is given under the two endianness
conditionals, and the two bitfield lists exactly as written in the source
(`le` is the `__LITTLE_ENDIAN_BITFIELD` branch, first field at bit 0;
`be` is the `#else` branch; for unions without the conditional both lists
are the single unconditional body). -/
structure RegUnion where
  name : String
  base : Nat
  endianConditional : Bool
  le : List Field
  be : List Field
deriving DecidableEq

/-- Widths of a bitfield list, in declaration order. -/
def widths (fs : List Field) : List Nat := fs.map Field.width

/-- Memory map `enum ctu_can_fd_can_registers`: register name, byte offset. -/
def canRegisters : List (String × Nat) :=
  [("CTU_CAN_FD_DEVICE_ID", 0x0), ("CTU_CAN_FD_VERSION", 0x2),
   ("CTU_CAN_FD_MODE", 0x4), ("CTU_CAN_FD_COMMAND", 0x5),
   ("CTU_CAN_FD_STATUS", 0x6), ("CTU_CAN_FD_SETTINGS", 0x7),
   ("CTU_CAN_FD_INT_STAT", 0x8), ("CTU_CAN_FD_INT_ENA_SET", 0xc),
   ("CTU_CAN_FD_INT_ENA_CLR", 0x10), ("CTU_CAN_FD_INT_MASK_SET", 0x14),
   ("CTU_CAN_FD_INT_MASK_CLR", 0x18), ("CTU_CAN_FD_BTR", 0x1c),
   ("CTU_CAN_FD_BTR_FD", 0x20), ("CTU_CAN_FD_EWL", 0x24),
   ("CTU_CAN_FD_ERP", 0x25), ("CTU_CAN_FD_FAULT_STATE", 0x26),
   ("CTU_CAN_FD_RXC", 0x28), ("CTU_CAN_FD_TXC", 0x2a),
   ("CTU_CAN_FD_ERR_NORM", 0x2c), ("CTU_CAN_FD_ERR_FD", 0x2e),
   ("CTU_CAN_FD_CTR_PRES", 0x30), ("CTU_CAN_FD_FILTER_A_MASK", 0x34),
   ("CTU_CAN_FD_FILTER_A_VAL", 0x38), ("CTU_CAN_FD_FILTER_B_MASK", 0x3c),
   ("CTU_CAN_FD_FILTER_B_VAL", 0x40), ("CTU_CAN_FD_FILTER_C_MASK", 0x44),
   ("CTU_CAN_FD_FILTER_C_VAL", 0x48), ("CTU_CAN_FD_FILTER_RAN_LOW", 0x4c),
   ("CTU_CAN_FD_FILTER_RAN_HIGH", 0x50), ("CTU_CAN_FD_FILTER_CONTROL", 0x54),
   ("CTU_CAN_FD_FILTER_STATUS", 0x56), ("CTU_CAN_FD_RX_MEM_INFO", 0x58),
   ("CTU_CAN_FD_RX_POINTERS", 0x5c), ("CTU_CAN_FD_RX_STATUS", 0x60),
   ("CTU_CAN_FD_RX_SETTINGS", 0x62), ("CTU_CAN_FD_RX_DATA", 0x64),
   ("CTU_CAN_FD_TX_STATUS", 0x68), ("CTU_CAN_FD_TX_COMMAND", 0x6c),
   ("CTU_CAN_FD_TX_PRIORITY", 0x70), ("CTU_CAN_FD_ERR_CAPT", 0x74),
   ("CTU_CAN_FD_ALC", 0x75), ("CTU_CAN_FD_TRV_DELAY", 0x78),
   ("CTU_CAN_FD_SSP_CFG", 0x7a), ("CTU_CAN_FD_RX_COUNTER", 0x7c),
   ("CTU_CAN_FD_TX_COUNTER", 0x80), ("CTU_CAN_FD_DEBUG_REGISTER", 0x84),
   ("CTU_CAN_FD_YOLO_REG", 0x88), ("CTU_CAN_FD_TIMESTAMP_LOW", 0x8c),
   ("CTU_CAN_FD_TIMESTAMP_HIGH", 0x90), ("CTU_CAN_FD_TXTB1_DATA_1", 0x100),
   ("CTU_CAN_FD_TXTB1_DATA_2", 0x104), ("CTU_CAN_FD_TXTB1_DATA_20", 0x14c),
   ("CTU_CAN_FD_TXTB2_DATA_1", 0x200), ("CTU_CAN_FD_TXTB2_DATA_2", 0x204),
   ("CTU_CAN_FD_TXTB2_DATA_20", 0x24c), ("CTU_CAN_FD_TXTB3_DATA_1", 0x300),
   ("CTU_CAN_FD_TXTB3_DATA_2", 0x304), ("CTU_CAN_FD_TXTB3_DATA_20", 0x34c),
   ("CTU_CAN_FD_TXTB4_DATA_1", 0x400), ("CTU_CAN_FD_TXTB4_DATA_2", 0x404),
   ("CTU_CAN_FD_TXTB4_DATA_20", 0x44c), ("CTU_CAN_FD_LOG_TRIG_CONFIG", 0x500),
   ("CTU_CAN_FD_LOG_CAPT_CONFIG", 0x504), ("CTU_CAN_FD_LOG_STATUS", 0x508),
   ("CTU_CAN_FD_LOG_POINTERS", 0x50a), ("CTU_CAN_FD_LOG_COMMAND", 0x50c),
   ("CTU_CAN_FD_LOG_CAPT_EVENT_1", 0x510), ("CTU_CAN_FD_LOG_CAPT_EVENT_2", 0x514)]

/-- Union `ctu_can_fd_device_id_version` (DEVICE_ID, VERSION at 0x0). -/
def ctu_can_fd_device_id_version : RegUnion :=
  { name := "ctu_can_fd_device_id_version", base := 0x0, endianConditional := true
    le := [⟨"device_id", 16⟩, ⟨"ver_minor", 8⟩, ⟨"ver_major", 8⟩]
    be := [⟨"ver_major", 8⟩, ⟨"ver_minor", 8⟩, ⟨"device_id", 16⟩] }

/-- Union `ctu_can_fd_mode_command_status_settings` (0x4). -/
def ctu_can_fd_mode_command_status_settings : RegUnion :=
  { name := "ctu_can_fd_mode_command_status_settings", base := 0x4
    endianConditional := true
    le := [⟨"rst", 1⟩, ⟨"lom", 1⟩, ⟨"stm", 1⟩, ⟨"afm", 1⟩, ⟨"fde", 1⟩,
           ⟨"rtrp", 1⟩, ⟨"tsm", 1⟩, ⟨"acf", 1⟩, ⟨"reserved_8", 1⟩,
           ⟨"abt", 1⟩, ⟨"rrb", 1⟩, ⟨"cdo", 1⟩, ⟨"ercrst", 1⟩,
           ⟨"rxfcrst", 1⟩, ⟨"txfcrst", 1⟩, ⟨"reserved_15", 1⟩,
           ⟨"rxne", 1⟩, ⟨"dor", 1⟩, ⟨"txnf", 1⟩, ⟨"eft", 1⟩,
           ⟨"rxs", 1⟩, ⟨"txs", 1⟩, ⟨"ewl", 1⟩, ⟨"idle", 1⟩,
           ⟨"rtrle", 1⟩, ⟨"rtrth", 4⟩, ⟨"ilbp", 1⟩, ⟨"ena", 1⟩, ⟨"nisofd", 1⟩]
    be := [⟨"nisofd", 1⟩, ⟨"ena", 1⟩, ⟨"ilbp", 1⟩, ⟨"rtrth", 4⟩,
           ⟨"rtrle", 1⟩, ⟨"idle", 1⟩, ⟨"ewl", 1⟩, ⟨"txs", 1⟩,
           ⟨"rxs", 1⟩, ⟨"eft", 1⟩, ⟨"txnf", 1⟩, ⟨"dor", 1⟩,
           ⟨"rxne", 1⟩, ⟨"reserved_15", 1⟩, ⟨"txfcrst", 1⟩, ⟨"rxfcrst", 1⟩,
           ⟨"ercrst", 1⟩, ⟨"cdo", 1⟩, ⟨"rrb", 1⟩, ⟨"abt", 1⟩,
           ⟨"reserved_8", 1⟩, ⟨"acf", 1⟩, ⟨"tsm", 1⟩, ⟨"rtrp", 1⟩,
           ⟨"fde", 1⟩, ⟨"afm", 1⟩, ⟨"stm", 1⟩, ⟨"lom", 1⟩, ⟨"rst", 1⟩] }

/-- Union `ctu_can_fd_int_stat` (0x8). -/
def ctu_can_fd_int_stat : RegUnion :=
  { name := "ctu_can_fd_int_stat", base := 0x8, endianConditional := true
    le := [⟨"rxi", 1⟩, ⟨"txi", 1⟩, ⟨"ewli", 1⟩, ⟨"doi", 1⟩, ⟨"epi", 1⟩,
           ⟨"ali", 1⟩, ⟨"bei", 1⟩, ⟨"lfi", 1⟩, ⟨"rxfi", 1⟩, ⟨"bsi", 1⟩,
           ⟨"rbnei", 1⟩, ⟨"txbhci", 1⟩, ⟨"reserved_31_12", 20⟩]
    be := [⟨"reserved_31_12", 20⟩, ⟨"txbhci", 1⟩, ⟨"rbnei", 1⟩, ⟨"bsi", 1⟩,
           ⟨"rxfi", 1⟩, ⟨"lfi", 1⟩, ⟨"bei", 1⟩, ⟨"ali", 1⟩, ⟨"epi", 1⟩,
           ⟨"doi", 1⟩, ⟨"ewli", 1⟩, ⟨"txi", 1⟩, ⟨"rxi", 1⟩] }

/-- Union `ctu_can_fd_int_ena_set` (0xc). -/
def ctu_can_fd_int_ena_set : RegUnion :=
  { name := "ctu_can_fd_int_ena_set", base := 0xc, endianConditional := true
    le := [⟨"int_ena_set", 12⟩, ⟨"reserved_31_12", 20⟩]
    be := [⟨"reserved_31_12", 20⟩, ⟨"int_ena_set", 12⟩] }

/-- Union `ctu_can_fd_int_ena_clr` (0x10). -/
def ctu_can_fd_int_ena_clr : RegUnion :=
  { name := "ctu_can_fd_int_ena_clr", base := 0x10, endianConditional := true
    le := [⟨"int_ena_clr", 12⟩, ⟨"reserved_31_12", 20⟩]
    be := [⟨"reserved_31_12", 20⟩, ⟨"int_ena_clr", 12⟩] }

/-- Union `ctu_can_fd_int_mask_set` (0x14). -/
def ctu_can_fd_int_mask_set : RegUnion :=
  { name := "ctu_can_fd_int_mask_set", base := 0x14, endianConditional := true
    le := [⟨"int_mask_set", 12⟩, ⟨"reserved_31_12", 20⟩]
    be := [⟨"reserved_31_12", 20⟩, ⟨"int_mask_set", 12⟩] }

/-- Union `ctu_can_fd_int_mask_clr` (0x18). -/
def ctu_can_fd_int_mask_clr : RegUnion :=
  { name := "ctu_can_fd_int_mask_clr", base := 0x18, endianConditional := true
    le := [⟨"int_mask_clr", 12⟩, ⟨"reserved_31_12", 20⟩]
    be := [⟨"reserved_31_12", 20⟩, ⟨"int_mask_clr", 12⟩] }

/-- Union `ctu_can_fd_btr` (0x1c). -/
def ctu_can_fd_btr : RegUnion :=
  { name := "ctu_can_fd_btr", base := 0x1c, endianConditional := true
    le := [⟨"prop", 7⟩, ⟨"ph1", 6⟩, ⟨"ph2", 6⟩, ⟨"brp", 8⟩, ⟨"sjw", 5⟩]
    be := [⟨"sjw", 5⟩, ⟨"brp", 8⟩, ⟨"ph2", 6⟩, ⟨"ph1", 6⟩, ⟨"prop", 7⟩] }

/-- Union `ctu_can_fd_btr_fd` (0x20). -/
def ctu_can_fd_btr_fd : RegUnion :=
  { name := "ctu_can_fd_btr_fd", base := 0x20, endianConditional := true
    le := [⟨"prop_fd", 6⟩, ⟨"reserved_6", 1⟩, ⟨"ph1_fd", 5⟩, ⟨"reserved_12", 1⟩,
           ⟨"ph2_fd", 5⟩, ⟨"reserved_18", 1⟩, ⟨"brp_fd", 8⟩, ⟨"sjw_fd", 5⟩]
    be := [⟨"sjw_fd", 5⟩, ⟨"brp_fd", 8⟩, ⟨"reserved_18", 1⟩, ⟨"ph2_fd", 5⟩,
           ⟨"reserved_12", 1⟩, ⟨"ph1_fd", 5⟩, ⟨"reserved_6", 1⟩, ⟨"prop_fd", 6⟩] }

/-- Union `ctu_can_fd_ewl_erp_fault_state` (0x24). -/
def ctu_can_fd_ewl_erp_fault_state : RegUnion :=
  { name := "ctu_can_fd_ewl_erp_fault_state", base := 0x24, endianConditional := true
    le := [⟨"ew_limit", 8⟩, ⟨"erp_limit", 8⟩, ⟨"era", 1⟩, ⟨"erp", 1⟩,
           ⟨"bof", 1⟩, ⟨"reserved_31_19", 13⟩]
    be := [⟨"reserved_31_19", 13⟩, ⟨"bof", 1⟩, ⟨"erp", 1⟩, ⟨"era", 1⟩,
           ⟨"erp_limit", 8⟩, ⟨"ew_limit", 8⟩] }

/-- Union `ctu_can_fd_rxc_txc` (0x28). -/
def ctu_can_fd_rxc_txc : RegUnion :=
  { name := "ctu_can_fd_rxc_txc", base := 0x28, endianConditional := true
    le := [⟨"rxc_val", 16⟩, ⟨"txc_val", 16⟩]
    be := [⟨"txc_val", 16⟩, ⟨"rxc_val", 16⟩] }

/-- Union `ctu_can_fd_err_norm_err_fd` (0x2c). -/
def ctu_can_fd_err_norm_err_fd : RegUnion :=
  { name := "ctu_can_fd_err_norm_err_fd", base := 0x2c, endianConditional := true
    le := [⟨"err_norm_val", 16⟩, ⟨"err_fd_val", 16⟩]
    be := [⟨"err_fd_val", 16⟩, ⟨"err_norm_val", 16⟩] }

/-- Union `ctu_can_fd_ctr_pres` (0x30). -/
def ctu_can_fd_ctr_pres : RegUnion :=
  { name := "ctu_can_fd_ctr_pres", base := 0x30, endianConditional := true
    le := [⟨"ctpv", 9⟩, ⟨"ptx", 1⟩, ⟨"prx", 1⟩, ⟨"enorm", 1⟩, ⟨"efd", 1⟩,
           ⟨"reserved_31_13", 19⟩]
    be := [⟨"reserved_31_13", 19⟩, ⟨"efd", 1⟩, ⟨"enorm", 1⟩, ⟨"prx", 1⟩,
           ⟨"ptx", 1⟩, ⟨"ctpv", 9⟩] }

/-- Union `ctu_can_fd_filter_a_mask` (0x34). -/
def ctu_can_fd_filter_a_mask : RegUnion :=
  { name := "ctu_can_fd_filter_a_mask", base := 0x34, endianConditional := true
    le := [⟨"bit_mask_a_val", 29⟩, ⟨"reserved_31_29", 3⟩]
    be := [⟨"reserved_31_29", 3⟩, ⟨"bit_mask_a_val", 29⟩] }

/-- Union `ctu_can_fd_filter_a_val` (0x38). -/
def ctu_can_fd_filter_a_val : RegUnion :=
  { name := "ctu_can_fd_filter_a_val", base := 0x38, endianConditional := true
    le := [⟨"bit_val_a_val", 29⟩, ⟨"reserved_31_29", 3⟩]
    be := [⟨"reserved_31_29", 3⟩, ⟨"bit_val_a_val", 29⟩] }

/-- Union `ctu_can_fd_filter_b_mask` (0x3c). -/
def ctu_can_fd_filter_b_mask : RegUnion :=
  { name := "ctu_can_fd_filter_b_mask", base := 0x3c, endianConditional := true
    le := [⟨"bit_mask_b_val", 29⟩, ⟨"reserved_31_29", 3⟩]
    be := [⟨"reserved_31_29", 3⟩, ⟨"bit_mask_b_val", 29⟩] }

/-- Union `ctu_can_fd_filter_b_val` (0x40). -/
def ctu_can_fd_filter_b_val : RegUnion :=
  { name := "ctu_can_fd_filter_b_val", base := 0x40, endianConditional := true
    le := [⟨"bit_val_b_val", 29⟩, ⟨"reserved_31_29", 3⟩]
    be := [⟨"reserved_31_29", 3⟩, ⟨"bit_val_b_val", 29⟩] }

/-- Union `ctu_can_fd_filter_c_mask` (0x44). -/
def ctu_can_fd_filter_c_mask : RegUnion :=
  { name := "ctu_can_fd_filter_c_mask", base := 0x44, endianConditional := true
    le := [⟨"bit_mask_c_val", 29⟩, ⟨"reserved_31_29", 3⟩]
    be := [⟨"reserved_31_29", 3⟩, ⟨"bit_mask_c_val", 29⟩] }

/-- Union `ctu_can_fd_filter_c_val` (0x48). -/
def ctu_can_fd_filter_c_val : RegUnion :=
  { name := "ctu_can_fd_filter_c_val", base := 0x48, endianConditional := true
    le := [⟨"bit_val_c_val", 29⟩, ⟨"reserved_31_29", 3⟩]
    be := [⟨"reserved_31_29", 3⟩, ⟨"bit_val_c_val", 29⟩] }

/-- Union `ctu_can_fd_filter_ran_low` (0x4c). -/
def ctu_can_fd_filter_ran_low : RegUnion :=
  { name := "ctu_can_fd_filter_ran_low", base := 0x4c, endianConditional := true
    le := [⟨"bit_ran_low_val", 29⟩, ⟨"reserved_31_29", 3⟩]
    be := [⟨"reserved_31_29", 3⟩, ⟨"bit_ran_low_val", 29⟩] }

/-- Union `ctu_can_fd_filter_ran_high` (0x50). -/
def ctu_can_fd_filter_ran_high : RegUnion :=
  { name := "ctu_can_fd_filter_ran_high", base := 0x50, endianConditional := true
    le := [⟨"bit_ran_high_val", 29⟩, ⟨"reserved_31_29", 3⟩]
    be := [⟨"reserved_31_29", 3⟩, ⟨"bit_ran_high_val", 29⟩] }

/-- Union `ctu_can_fd_filter_control_filter_status` (0x54). -/
def ctu_can_fd_filter_control_filter_status : RegUnion :=
  { name := "ctu_can_fd_filter_control_filter_status", base := 0x54
    endianConditional := true
    le := [⟨"fanb", 1⟩, ⟨"fane", 1⟩, ⟨"fafb", 1⟩, ⟨"fafe", 1⟩,
           ⟨"fbnb", 1⟩, ⟨"fbne", 1⟩, ⟨"fbfb", 1⟩, ⟨"fbfe", 1⟩,
           ⟨"fcnb", 1⟩, ⟨"fcne", 1⟩, ⟨"fcfb", 1⟩, ⟨"fcfe", 1⟩,
           ⟨"frnb", 1⟩, ⟨"frne", 1⟩, ⟨"frfb", 1⟩, ⟨"frfe", 1⟩,
           ⟨"sfa", 1⟩, ⟨"sfb", 1⟩, ⟨"sfc", 1⟩, ⟨"sfr", 1⟩,
           ⟨"reserved_31_20", 12⟩]
    be := [⟨"reserved_31_20", 12⟩, ⟨"sfr", 1⟩, ⟨"sfc", 1⟩, ⟨"sfb", 1⟩,
           ⟨"sfa", 1⟩, ⟨"frfe", 1⟩, ⟨"frfb", 1⟩, ⟨"frne", 1⟩,
           ⟨"frnb", 1⟩, ⟨"fcfe", 1⟩, ⟨"fcfb", 1⟩, ⟨"fcne", 1⟩,
           ⟨"fcnb", 1⟩, ⟨"fbfe", 1⟩, ⟨"fbfb", 1⟩, ⟨"fbne", 1⟩,
           ⟨"fbnb", 1⟩, ⟨"fafe", 1⟩, ⟨"fafb", 1⟩, ⟨"fane", 1⟩, ⟨"fanb", 1⟩] }

/-- Union `ctu_can_fd_rx_mem_info` (0x58). -/
def ctu_can_fd_rx_mem_info : RegUnion :=
  { name := "ctu_can_fd_rx_mem_info", base := 0x58, endianConditional := true
    le := [⟨"rx_buff_size", 13⟩, ⟨"reserved_15_13", 3⟩, ⟨"rx_mem_free", 13⟩,
           ⟨"reserved_31_29", 3⟩]
    be := [⟨"reserved_31_29", 3⟩, ⟨"rx_mem_free", 13⟩, ⟨"reserved_15_13", 3⟩,
           ⟨"rx_buff_size", 13⟩] }

/-- Union `ctu_can_fd_rx_pointers` (0x5c). -/
def ctu_can_fd_rx_pointers : RegUnion :=
  { name := "ctu_can_fd_rx_pointers", base := 0x5c, endianConditional := true
    le := [⟨"rx_wpp", 12⟩, ⟨"reserved_15_12", 4⟩, ⟨"rx_rpp", 12⟩,
           ⟨"reserved_31_28", 4⟩]
    be := [⟨"reserved_31_28", 4⟩, ⟨"rx_rpp", 12⟩, ⟨"reserved_15_12", 4⟩,
           ⟨"rx_wpp", 12⟩] }

/-- Union `ctu_can_fd_rx_status_rx_settings` (0x60). -/
def ctu_can_fd_rx_status_rx_settings : RegUnion :=
  { name := "ctu_can_fd_rx_status_rx_settings", base := 0x60, endianConditional := true
    le := [⟨"rxe", 1⟩, ⟨"rxf", 1⟩, ⟨"reserved_3_2", 2⟩, ⟨"rxfrc", 11⟩,
           ⟨"reserved_15", 1⟩, ⟨"rtsop", 1⟩, ⟨"reserved_31_17", 15⟩]
    be := [⟨"reserved_31_17", 15⟩, ⟨"rtsop", 1⟩, ⟨"reserved_15", 1⟩,
           ⟨"rxfrc", 11⟩, ⟨"reserved_3_2", 2⟩, ⟨"rxf", 1⟩, ⟨"rxe", 1⟩] }

/-- Union `ctu_can_fd_rx_data` (0x64, no endianness conditional). -/
def ctu_can_fd_rx_data : RegUnion :=
  { name := "ctu_can_fd_rx_data", base := 0x64, endianConditional := false
    le := [⟨"rx_data", 32⟩]
    be := [⟨"rx_data", 32⟩] }

/-- Union `ctu_can_fd_tx_status` (0x68). -/
def ctu_can_fd_tx_status : RegUnion :=
  { name := "ctu_can_fd_tx_status", base := 0x68, endianConditional := true
    le := [⟨"tx1s", 4⟩, ⟨"tx2s", 4⟩, ⟨"tx3s", 4⟩, ⟨"tx4s", 4⟩,
           ⟨"reserved_31_16", 16⟩]
    be := [⟨"reserved_31_16", 16⟩, ⟨"tx4s", 4⟩, ⟨"tx3s", 4⟩, ⟨"tx2s", 4⟩,
           ⟨"tx1s", 4⟩] }

/-- Union `ctu_can_fd_tx_command` (0x6c). -/
def ctu_can_fd_tx_command : RegUnion :=
  { name := "ctu_can_fd_tx_command", base := 0x6c, endianConditional := true
    le := [⟨"txce", 1⟩, ⟨"txcr", 1⟩, ⟨"txca", 1⟩, ⟨"reserved_7_3", 5⟩,
           ⟨"txb1", 1⟩, ⟨"txb2", 1⟩, ⟨"txb3", 1⟩, ⟨"txb4", 1⟩,
           ⟨"reserved_31_12", 20⟩]
    be := [⟨"reserved_31_12", 20⟩, ⟨"txb4", 1⟩, ⟨"txb3", 1⟩, ⟨"txb2", 1⟩,
           ⟨"txb1", 1⟩, ⟨"reserved_7_3", 5⟩, ⟨"txca", 1⟩, ⟨"txcr", 1⟩,
           ⟨"txce", 1⟩] }

/-- Union `ctu_can_fd_tx_priority` (0x70). -/
def ctu_can_fd_tx_priority : RegUnion :=
  { name := "ctu_can_fd_tx_priority", base := 0x70, endianConditional := true
    le := [⟨"txt1p", 3⟩, ⟨"reserved_3", 1⟩, ⟨"txt2p", 3⟩, ⟨"reserved_7", 1⟩,
           ⟨"txt3p", 3⟩, ⟨"reserved_11", 1⟩, ⟨"txt4p", 3⟩,
           ⟨"reserved_31_15", 17⟩]
    be := [⟨"reserved_31_15", 17⟩, ⟨"txt4p", 3⟩, ⟨"reserved_11", 1⟩,
           ⟨"txt3p", 3⟩, ⟨"reserved_7", 1⟩, ⟨"txt2p", 3⟩, ⟨"reserved_3", 1⟩,
           ⟨"txt1p", 3⟩] }

/-- Union `ctu_can_fd_err_capt_alc` (0x74). -/
def ctu_can_fd_err_capt_alc : RegUnion :=
  { name := "ctu_can_fd_err_capt_alc", base := 0x74, endianConditional := true
    le := [⟨"err_pos", 5⟩, ⟨"err_type", 3⟩, ⟨"alc_bit", 5⟩,
           ⟨"alc_id_field", 3⟩, ⟨"reserved_31_16", 16⟩]
    be := [⟨"reserved_31_16", 16⟩, ⟨"alc_id_field", 3⟩, ⟨"alc_bit", 5⟩,
           ⟨"err_type", 3⟩, ⟨"err_pos", 5⟩] }

/-- Union `ctu_can_fd_trv_delay_ssp_cfg` (0x78). -/
def ctu_can_fd_trv_delay_ssp_cfg : RegUnion :=
  { name := "ctu_can_fd_trv_delay_ssp_cfg", base := 0x78, endianConditional := true
    le := [⟨"trv_delay_value", 16⟩, ⟨"ssp_offset", 7⟩, ⟨"reserved_23", 1⟩,
           ⟨"ssp_src", 2⟩, ⟨"reserved_31_26", 6⟩]
    be := [⟨"reserved_31_26", 6⟩, ⟨"ssp_src", 2⟩, ⟨"reserved_23", 1⟩,
           ⟨"ssp_offset", 7⟩, ⟨"trv_delay_value", 16⟩] }

/-- Union `ctu_can_fd_rx_counter` (0x7c, no endianness conditional). -/
def ctu_can_fd_rx_counter : RegUnion :=
  { name := "ctu_can_fd_rx_counter", base := 0x7c, endianConditional := false
    le := [⟨"rx_counter_val", 32⟩]
    be := [⟨"rx_counter_val", 32⟩] }

/-- Union `ctu_can_fd_tx_counter` (0x80, no endianness conditional). -/
def ctu_can_fd_tx_counter : RegUnion :=
  { name := "ctu_can_fd_tx_counter", base := 0x80, endianConditional := false
    le := [⟨"tx_counter_val", 32⟩]
    be := [⟨"tx_counter_val", 32⟩] }

/-- Union `ctu_can_fd_debug_register` (0x84). -/
def ctu_can_fd_debug_register : RegUnion :=
  { name := "ctu_can_fd_debug_register", base := 0x84, endianConditional := true
    le := [⟨"stuff_count", 3⟩, ⟨"destuff_count", 3⟩, ⟨"pc_arb", 1⟩,
           ⟨"pc_con", 1⟩, ⟨"pc_dat", 1⟩, ⟨"pc_crc", 1⟩, ⟨"pc_eof", 1⟩,
           ⟨"pc_ovr", 1⟩, ⟨"pc_int", 1⟩, ⟨"reserved_31_13", 19⟩]
    be := [⟨"reserved_31_13", 19⟩, ⟨"pc_int", 1⟩, ⟨"pc_ovr", 1⟩,
           ⟨"pc_eof", 1⟩, ⟨"pc_crc", 1⟩, ⟨"pc_dat", 1⟩, ⟨"pc_con", 1⟩,
           ⟨"pc_arb", 1⟩, ⟨"destuff_count", 3⟩, ⟨"stuff_count", 3⟩] }

/-- Union `ctu_can_fd_yolo_reg` (0x88, no endianness conditional). -/
def ctu_can_fd_yolo_reg : RegUnion :=
  { name := "ctu_can_fd_yolo_reg", base := 0x88, endianConditional := false
    le := [⟨"yolo_val", 32⟩]
    be := [⟨"yolo_val", 32⟩] }

/-- Union `ctu_can_fd_timestamp_low` (0x8c, no endianness conditional). -/
def ctu_can_fd_timestamp_low : RegUnion :=
  { name := "ctu_can_fd_timestamp_low", base := 0x8c, endianConditional := false
    le := [⟨"timestamp_low", 32⟩]
    be := [⟨"timestamp_low", 32⟩] }

/-- Union `ctu_can_fd_timestamp_high` (0x90, no endianness conditional). -/
def ctu_can_fd_timestamp_high : RegUnion :=
  { name := "ctu_can_fd_timestamp_high", base := 0x90, endianConditional := false
    le := [⟨"timestamp_high", 32⟩]
    be := [⟨"timestamp_high", 32⟩] }

/-- Union `ctu_can_fd_log_trig_config` (0x500). -/
def ctu_can_fd_log_trig_config : RegUnion :=
  { name := "ctu_can_fd_log_trig_config", base := 0x500, endianConditional := true
    le := [⟨"t_sof", 1⟩, ⟨"t_arbl", 1⟩, ⟨"t_rev", 1⟩, ⟨"t_trv", 1⟩,
           ⟨"t_ovl", 1⟩, ⟨"t_err", 1⟩, ⟨"t_brs", 1⟩, ⟨"t_usrw", 1⟩,
           ⟨"t_arbs", 1⟩, ⟨"t_ctrs", 1⟩, ⟨"t_dats", 1⟩, ⟨"t_crcs", 1⟩,
           ⟨"t_ackr", 1⟩, ⟨"t_acknr", 1⟩, ⟨"t_ewlr", 1⟩, ⟨"t_erpc", 1⟩,
           ⟨"t_trs", 1⟩, ⟨"t_res", 1⟩, ⟨"reserved_31_18", 14⟩]
    be := [⟨"reserved_31_18", 14⟩, ⟨"t_res", 1⟩, ⟨"t_trs", 1⟩,
           ⟨"t_erpc", 1⟩, ⟨"t_ewlr", 1⟩, ⟨"t_acknr", 1⟩, ⟨"t_ackr", 1⟩,
           ⟨"t_crcs", 1⟩, ⟨"t_dats", 1⟩, ⟨"t_ctrs", 1⟩, ⟨"t_arbs", 1⟩,
           ⟨"t_usrw", 1⟩, ⟨"t_brs", 1⟩, ⟨"t_err", 1⟩, ⟨"t_ovl", 1⟩,
           ⟨"t_trv", 1⟩, ⟨"t_rev", 1⟩, ⟨"t_arbl", 1⟩, ⟨"t_sof", 1⟩] }

/-- Union `ctu_can_fd_log_capt_config` (0x504). -/
def ctu_can_fd_log_capt_config : RegUnion :=
  { name := "ctu_can_fd_log_capt_config", base := 0x504, endianConditional := true
    le := [⟨"c_sof", 1⟩, ⟨"c_arbl", 1⟩, ⟨"c_rev", 1⟩, ⟨"c_trv", 1⟩,
           ⟨"c_ovl", 1⟩, ⟨"c_err", 1⟩, ⟨"c_brs", 1⟩, ⟨"c_arbs", 1⟩,
           ⟨"c_ctrs", 1⟩, ⟨"c_dats", 1⟩, ⟨"c_crcs", 1⟩, ⟨"c_ackr", 1⟩,
           ⟨"c_acknr", 1⟩, ⟨"c_ewlr", 1⟩, ⟨"c_erc", 1⟩, ⟨"c_trs", 1⟩,
           ⟨"c_res", 1⟩, ⟨"c_syne", 1⟩, ⟨"c_stuff", 1⟩, ⟨"c_destuff", 1⟩,
           ⟨"c_ovr", 1⟩, ⟨"reserved_31_21", 11⟩]
    be := [⟨"reserved_31_21", 11⟩, ⟨"c_ovr", 1⟩, ⟨"c_destuff", 1⟩,
           ⟨"c_stuff", 1⟩, ⟨"c_syne", 1⟩, ⟨"c_res", 1⟩, ⟨"c_trs", 1⟩,
           ⟨"c_erc", 1⟩, ⟨"c_ewlr", 1⟩, ⟨"c_acknr", 1⟩, ⟨"c_ackr", 1⟩,
           ⟨"c_crcs", 1⟩, ⟨"c_dats", 1⟩, ⟨"c_ctrs", 1⟩, ⟨"c_arbs", 1⟩,
           ⟨"c_brs", 1⟩, ⟨"c_err", 1⟩, ⟨"c_ovl", 1⟩, ⟨"c_trv", 1⟩,
           ⟨"c_rev", 1⟩, ⟨"c_arbl", 1⟩, ⟨"c_sof", 1⟩] }

/-- Union `ctu_can_fd_log_status_log_pointers` (0x508). -/
def ctu_can_fd_log_status_log_pointers : RegUnion :=
  { name := "ctu_can_fd_log_status_log_pointers", base := 0x508, endianConditional := true
    le := [⟨"log_cfg", 1⟩, ⟨"log_rdy", 1⟩, ⟨"log_run", 1⟩, ⟨"reserved_6_3", 4⟩,
           ⟨"log_exist", 1⟩, ⟨"log_size", 8⟩, ⟨"log_wpp", 8⟩, ⟨"log_rpp", 8⟩]
    be := [⟨"log_rpp", 8⟩, ⟨"log_wpp", 8⟩, ⟨"log_size", 8⟩, ⟨"log_exist", 1⟩,
           ⟨"reserved_6_3", 4⟩, ⟨"log_run", 1⟩, ⟨"log_rdy", 1⟩, ⟨"log_cfg", 1⟩] }

/-- Union `ctu_can_fd_log_command` (0x50c). -/
def ctu_can_fd_log_command : RegUnion :=
  { name := "ctu_can_fd_log_command", base := 0x50c, endianConditional := true
    le := [⟨"log_str", 1⟩, ⟨"log_abt", 1⟩, ⟨"log_up", 1⟩, ⟨"log_down", 1⟩,
           ⟨"reserved_31_4", 28⟩]
    be := [⟨"reserved_31_4", 28⟩, ⟨"log_down", 1⟩, ⟨"log_up", 1⟩,
           ⟨"log_abt", 1⟩, ⟨"log_str", 1⟩] }

/-- Union `ctu_can_fd_log_capt_event_1` (0x510, no endianness conditional). -/
def ctu_can_fd_log_capt_event_1 : RegUnion :=
  { name := "ctu_can_fd_log_capt_event_1", base := 0x510, endianConditional := false
    le := [⟨"event_ts_48_16", 32⟩]
    be := [⟨"event_ts_48_16", 32⟩] }

/-- Union `ctu_can_fd_log_capt_event_2` (0x514). -/
def ctu_can_fd_log_capt_event_2 : RegUnion :=
  { name := "ctu_can_fd_log_capt_event_2", base := 0x514, endianConditional := true
    le := [⟨"evnt_type", 5⟩, ⟨"evnt_den", 3⟩, ⟨"evnt_det", 5⟩,
           ⟨"evnt_dea", 3⟩, ⟨"event_ts_15_0", 16⟩]
    be := [⟨"event_ts_15_0", 16⟩, ⟨"evnt_dea", 3⟩, ⟨"evnt_det", 5⟩,
           ⟨"evnt_den", 3⟩, ⟨"evnt_type", 5⟩] }

/-- All register unions of the header, in source order. -/
def allUnions : List RegUnion :=
  [ctu_can_fd_device_id_version, ctu_can_fd_mode_command_status_settings,
   ctu_can_fd_int_stat, ctu_can_fd_int_ena_set, ctu_can_fd_int_ena_clr,
   ctu_can_fd_int_mask_set, ctu_can_fd_int_mask_clr, ctu_can_fd_btr,
   ctu_can_fd_btr_fd, ctu_can_fd_ewl_erp_fault_state, ctu_can_fd_rxc_txc,
   ctu_can_fd_err_norm_err_fd, ctu_can_fd_ctr_pres, ctu_can_fd_filter_a_mask,
   ctu_can_fd_filter_a_val, ctu_can_fd_filter_b_mask, ctu_can_fd_filter_b_val,
   ctu_can_fd_filter_c_mask, ctu_can_fd_filter_c_val, ctu_can_fd_filter_ran_low,
   ctu_can_fd_filter_ran_high, ctu_can_fd_filter_control_filter_status,
   ctu_can_fd_rx_mem_info, ctu_can_fd_rx_pointers, ctu_can_fd_rx_status_rx_settings,
   ctu_can_fd_rx_data, ctu_can_fd_tx_status, ctu_can_fd_tx_command,
   ctu_can_fd_tx_priority, ctu_can_fd_err_capt_alc, ctu_can_fd_trv_delay_ssp_cfg,
   ctu_can_fd_rx_counter, ctu_can_fd_tx_counter, ctu_can_fd_debug_register,
   ctu_can_fd_yolo_reg, ctu_can_fd_timestamp_low, ctu_can_fd_timestamp_high,
   ctu_can_fd_log_trig_config, ctu_can_fd_log_capt_config,
   ctu_can_fd_log_status_log_pointers, ctu_can_fd_log_command,
   ctu_can_fd_log_capt_event_1, ctu_can_fd_log_capt_event_2]

/-- A field-value enumeration of the header: the enum identifier, the bit
width of the field whose values it names, and its enumerators. -/
structure FieldEnum where
  enumName : String
  fieldWidth : Nat
  values : List (String × Nat)
deriving DecidableEq

/-- Enum `ctu_can_fd_device_id_device_id` (16-bit `device_id` field). -/
def ctu_can_fd_device_id_device_id : FieldEnum :=
  { enumName := "ctu_can_fd_device_id_device_id", fieldWidth := 16
    values := [("CTU_CAN_FD_ID", 0xcafd)] }

/-- Enum `ctu_can_fd_mode_lom` (1-bit `lom` field). -/
def ctu_can_fd_mode_lom : FieldEnum :=
  { enumName := "ctu_can_fd_mode_lom", fieldWidth := 1
    values := [("LOM_DISABLED", 0x0), ("LOM_ENABLED", 0x1)] }

/-- Enum `ctu_can_fd_mode_stm` (1-bit `stm` field). -/
def ctu_can_fd_mode_stm : FieldEnum :=
  { enumName := "ctu_can_fd_mode_stm", fieldWidth := 1
    values := [("STM_DISABLED", 0x0), ("STM_ENABLED", 0x1)] }

/-- Enum `ctu_can_fd_mode_afm` (1-bit `afm` field). -/
def ctu_can_fd_mode_afm : FieldEnum :=
  { enumName := "ctu_can_fd_mode_afm", fieldWidth := 1
    values := [("AFM_DISABLED", 0x0), ("AFM_ENABLED", 0x1)] }

/-- Enum `ctu_can_fd_mode_fde` (1-bit `fde` field). -/
def ctu_can_fd_mode_fde : FieldEnum :=
  { enumName := "ctu_can_fd_mode_fde", fieldWidth := 1
    values := [("FDE_DISABLE", 0x0), ("FDE_ENABLE", 0x1)] }

/-- Enum `ctu_can_fd_mode_rtrp` (1-bit `rtrp` field). -/
def ctu_can_fd_mode_rtrp : FieldEnum :=
  { enumName := "ctu_can_fd_mode_rtrp", fieldWidth := 1
    values := [("RTR_EXTRA", 0x0), ("RTR_STANDARD", 0x1)] }

/-- Enum `ctu_can_fd_mode_tsm` (1-bit `tsm` field). -/
def ctu_can_fd_mode_tsm : FieldEnum :=
  { enumName := "ctu_can_fd_mode_tsm", fieldWidth := 1
    values := [("TSM_DISABLE", 0x0), ("TSM_ENABLE", 0x1)] }

/-- Enum `ctu_can_fd_mode_acf` (1-bit `acf` field). -/
def ctu_can_fd_mode_acf : FieldEnum :=
  { enumName := "ctu_can_fd_mode_acf", fieldWidth := 1
    values := [("ACF_DISABLED", 0x0), ("ACF_ENABLED", 0x1)] }

/-- Enum `ctu_can_fd_settings_rtrle` (1-bit `rtrle` field). -/
def ctu_can_fd_settings_rtrle : FieldEnum :=
  { enumName := "ctu_can_fd_settings_rtrle", fieldWidth := 1
    values := [("RTRLE_DISABLED", 0x0), ("RTRLE_ENABLED", 0x1)] }

/-- Enum `ctu_can_fd_settings_ilbp` (1-bit `ilbp` field). -/
def ctu_can_fd_settings_ilbp : FieldEnum :=
  { enumName := "ctu_can_fd_settings_ilbp", fieldWidth := 1
    values := [("INT_LOOP_DISABLED", 0x0), ("INT_LOOP_ENABLED", 0x1)] }

/-- Enum `ctu_can_fd_settings_ena` (1-bit `ena` field). -/
def ctu_can_fd_settings_ena : FieldEnum :=
  { enumName := "ctu_can_fd_settings_ena", fieldWidth := 1
    values := [("DISABLED", 0x0), ("ENABLED", 0x1)] }

/-- Enum `ctu_can_fd_settings_nisofd` (1-bit `nisofd` field). -/
def ctu_can_fd_settings_nisofd : FieldEnum :=
  { enumName := "ctu_can_fd_settings_nisofd", fieldWidth := 1
    values := [("ISO_FD", 0x0), ("NON_ISO_FD", 0x1)] }

/-- Enum `ctu_can_fd_rx_settings_rtsop` (1-bit `rtsop` field). -/
def ctu_can_fd_rx_settings_rtsop : FieldEnum :=
  { enumName := "ctu_can_fd_rx_settings_rtsop", fieldWidth := 1
    values := [("RTS_END", 0x0), ("RTS_BEG", 0x1)] }

/-- Enum `ctu_can_fd_tx_status_tx1s` (4-bit `tx1s` field). -/
def ctu_can_fd_tx_status_tx1s : FieldEnum :=
  { enumName := "ctu_can_fd_tx_status_tx1s", fieldWidth := 4
    values := [("TXT_RDY", 0x1), ("TXT_TRAN", 0x2), ("TXT_ABTP", 0x3),
               ("TXT_TOK", 0x4), ("TXT_ERR", 0x6), ("TXT_ABT", 0x7),
               ("TXT_ETY", 0x8)] }

/-- Enum `ctu_can_fd_err_capt_err_pos` (5-bit `err_pos` field). -/
def ctu_can_fd_err_capt_err_pos : FieldEnum :=
  { enumName := "ctu_can_fd_err_capt_err_pos", fieldWidth := 5
    values := [("ERC_POS_SOF", 0x0), ("ERC_POS_ARB", 0x1), ("ERC_POS_CTRL", 0x2),
               ("ERC_POS_DATA", 0x3), ("ERC_POS_CRC", 0x4), ("ERC_POS_ACK", 0x5),
               ("ERC_POS_INTF", 0x6), ("ERC_POS_ERR", 0x7), ("ERC_POS_OVRL", 0x8),
               ("ERC_POS_OTHER", 0x1f)] }

/-- Enum `ctu_can_fd_err_capt_err_type` (3-bit `err_type` field). -/
def ctu_can_fd_err_capt_err_type : FieldEnum :=
  { enumName := "ctu_can_fd_err_capt_err_type", fieldWidth := 3
    values := [("ERC_BIT_ERR", 0x0), ("ERC_CRC_ERR", 0x1), ("ERC_FRM_ERR", 0x2),
               ("ERC_ACK_ERR", 0x3), ("ERC_STUF_ERR", 0x4)] }

/-- Enum `ctu_can_fd_alc_alc_id_field` (3-bit `alc_id_field` field). -/
def ctu_can_fd_alc_alc_id_field : FieldEnum :=
  { enumName := "ctu_can_fd_alc_alc_id_field", fieldWidth := 3
    values := [("ALC_BASE_ID", 0x0), ("ALC_SRR_RTR", 0x1), ("ALC_IDE", 0x2),
               ("ALC_EXTENSION", 0x3), ("ALC_RTR", 0x4)] }

/-- Enum `ctu_can_fd_ssp_cfg_ssp_src` (2-bit `ssp_src` field). -/
def ctu_can_fd_ssp_cfg_ssp_src : FieldEnum :=
  { enumName := "ctu_can_fd_ssp_cfg_ssp_src", fieldWidth := 2
    values := [("SSP_SRC_MEASURED", 0x0), ("SSP_SRC_MEAS_N_OFFSET", 0x1),
               ("SSP_SRC_OFFSET", 0x2)] }

/-- Enum `ctu_can_fd_log_capt_event_2_evnt_type` (5-bit `evnt_type` field). -/
def ctu_can_fd_log_capt_event_2_evnt_type : FieldEnum :=
  { enumName := "ctu_can_fd_log_capt_event_2_evnt_type", fieldWidth := 5
    values := [("SOF_EVNT", 0x1), ("ARBL_EVNT", 0x2), ("FREC_EVNT", 0x3),
               ("TRANV_EVNT", 0x4), ("OVRL_EVNT", 0x5), ("ERR_EVNT", 0x6),
               ("BRS_EVNT", 0x7), ("ARBS_EVNT", 0x8), ("CONS_EVNT", 0x9),
               ("DATS_EVNT", 0xa), ("CRCS_EVNT", 0xb), ("ACKR_EVNT", 0xc),
               ("ACKN_EVNT", 0xd), ("EWLR_EVNT", 0xe), ("FCSC_EVNT", 0xf),
               ("TS_EVNT", 0x10), ("RS_EVNT", 0x11), ("SE_EVNT", 0x12),
               ("STF_EVNT", 0x13), ("DSTF_EVNT", 0x14), ("DOR_EVNT", 0x15)] }

/-- Enum `ctu_can_fd_log_capt_event_2_evnt_det` (5-bit `evnt_det` field). -/
def ctu_can_fd_log_capt_event_2_evnt_det : FieldEnum :=
  { enumName := "ctu_can_fd_log_capt_event_2_evnt_det", fieldWidth := 5
    values := [("ISN_FDSTF", 0x0), ("ISN_FSTF", 0x0), ("BIT_ERR", 0x1),
               ("S_UP", 0x1), ("IS_SYNC", 0x1), ("IS_FDSTF", 0x1),
               ("IS_FSTF", 0x1), ("ST_ERR", 0x2), ("S_DOWN", 0x2),
               ("IS_PROP", 0x2), ("CRC_ERR", 0x4), ("IS_PH1", 0x4),
               ("ACK_ERR", 0x8), ("IS_PH2", 0x8), ("FRM_ERR", 0x10)] }

/-- Enum `ctu_can_fd_log_capt_event_2_evnt_dea` (3-bit `evnt_dea` field). -/
def ctu_can_fd_log_capt_event_2_evnt_dea : FieldEnum :=
  { enumName := "ctu_can_fd_log_capt_event_2_evnt_dea", fieldWidth := 3
    values := [("NO_SNC", 0x0), ("HA_SNC", 0x1), ("RE_SNC", 0x2)] }

/-- All field-value enumerations of the header, in source order, each paired
with the declared width of the bitfield it gives values for. -/
def fieldValueEnums : List FieldEnum :=
  [ctu_can_fd_device_id_device_id, ctu_can_fd_mode_lom, ctu_can_fd_mode_stm,
   ctu_can_fd_mode_afm, ctu_can_fd_mode_fde, ctu_can_fd_mode_rtrp,
   ctu_can_fd_mode_tsm, ctu_can_fd_mode_acf, ctu_can_fd_settings_rtrle,
   ctu_can_fd_settings_ilbp, ctu_can_fd_settings_ena, ctu_can_fd_settings_nisofd,
   ctu_can_fd_rx_settings_rtsop, ctu_can_fd_tx_status_tx1s,
   ctu_can_fd_err_capt_err_pos, ctu_can_fd_err_capt_err_type,
   ctu_can_fd_alc_alc_id_field, ctu_can_fd_ssp_cfg_ssp_src,
   ctu_can_fd_log_capt_event_2_evnt_type, ctu_can_fd_log_capt_event_2_evnt_det,
   ctu_can_fd_log_capt_event_2_evnt_dea]

/-- Semantics of reading the bitfield struct after a raw `u32` write: split a
word into the successive field values of a little-endian-ordered width list,
first width at bit 0 (C little-endian bitfield allocation for `uint32_t`
members). -/
def decompose : List Nat → Nat → List Nat
  | [], _ => []
  | w :: ws, v => v % 2 ^ w :: decompose ws (v / 2 ^ w)

/-- Semantics of reading `u32` after setting all bitfields: reassemble field
values at the bit positions given by a little-endian-ordered width list. -/
def recompose : List Nat → List Nat → Nat
  | w :: ws, x :: xs => x + 2 ^ w * recompose ws xs
  | _, _ => 0

/-- Reassembling the split of a word recovers the word modulo the total
width of the layout. -/
theorem recompose_decompose (ws : List Nat) (v : Nat) :
    recompose ws (decompose ws v) = v % 2 ^ ws.sum := by
  induction ws generalizing v with
  | nil => simp [recompose, decompose, Nat.mod_one]
  | cons w ws ih =>
      simp only [decompose, recompose, ih, List.sum_cons, pow_add]
      rw [Nat.mod_mul]

/-- Splitting a reassembled word recovers the field values, provided each
value fits in its declared width. -/
theorem decompose_recompose {ws xs : List Nat}
    (h : List.Forall₂ (fun w x => x < 2 ^ w) ws xs) :
    decompose ws (recompose ws xs) = xs := by
  induction h with
  | nil => rfl
  | cons hx _ ih =>
      simp only [recompose, decompose, List.cons.injEq]
      refine ⟨?_, ?_⟩
      · rw [Nat.add_mul_mod_self_left, Nat.mod_eq_of_lt hx]
      · rw [Nat.add_mul_div_left _ _ (Nat.two_pow_pos _),
            Nat.div_eq_of_lt hx, Nat.zero_add, ih]

/-- Every union's little-endian layout is exactly 32 bits wide. -/
theorem le_widths_sum32 : ∀ u ∈ allUnions, (widths u.le).sum = 32 := by decide

/-- C1: for every register union of the header that is given under both the
little-endian and the big-endian bitfield conditionals, the big-endian field
list is exactly the reverse of the little-endian field list (same names, same
widths, mirrored order), so both variants place every field at the same bit
positions of the 32-bit word. -/
theorem endian_layouts_mirror :
    ∀ u ∈ allUnions, u.endianConditional = true → u.be = u.le.reverse := by decide

/-- Witness for C1 at the `ctu_can_fd_btr` union. -/
theorem endian_layouts_mirror_witness :
    ctu_can_fd_btr ∈ allUnions ∧ ctu_can_fd_btr.endianConditional = true ∧
      ctu_can_fd_btr.be = ctu_can_fd_btr.le.reverse :=
  ⟨by decide, by decide, endian_layouts_mirror ctu_can_fd_btr (by decide) (by decide)⟩

/-- C2: for every register union, splitting any 32-bit value into the union's
bitfields and reassembling the fields at their declared positions is the
identity, and conversely reassembling any in-range field values and splitting
again returns the same field values: the raw `u32` member and the bitfield
view alias the same 32 bits. -/
theorem u32_field_view_roundtrip :
    ∀ u ∈ allUnions,
      (∀ v < 2 ^ 32, recompose (widths u.le) (decompose (widths u.le) v) = v) ∧
      (∀ xs, List.Forall₂ (fun w x => x < 2 ^ w) (widths u.le) xs →
        decompose (widths u.le) (recompose (widths u.le) xs) = xs) := by
  intro u hu
  refine ⟨fun v hv => ?_, fun xs hxs => decompose_recompose hxs⟩
  rw [recompose_decompose, le_widths_sum32 u hu, Nat.mod_eq_of_lt hv]

/-- Witness for C2 at the `ctu_can_fd_device_id_version` union and the raw
value 0xcafd0201. -/
theorem u32_field_view_roundtrip_witness :
    ctu_can_fd_device_id_version ∈ allUnions ∧ 0xcafd0201 < 2 ^ 32 ∧
      recompose (widths ctu_can_fd_device_id_version.le)
        (decompose (widths ctu_can_fd_device_id_version.le) 0xcafd0201)
        = 0xcafd0201 :=
  ⟨by decide, by decide,
   (u32_field_view_roundtrip ctu_can_fd_device_id_version (by decide)).1
     0xcafd0201 (by decide)⟩

/-- C3: the 64 enumerators of `ctu_can_fd_can_registers` are pairwise
distinct, and the 32-bit word spans of distinct register unions are pairwise
non-overlapping (registers sharing a word appear packed inside one union,
never in two overlapping unions). -/
theorem register_offsets_injective_unions_disjoint :
    (canRegisters.map Prod.snd).Nodup ∧
      (allUnions.map RegUnion.base).Pairwise
        (fun a b => a + 4 ≤ b ∨ b + 4 ≤ a) := by decide

/-- C4: every named constant of every field-value enumeration fits in the
declared bit width of the field it gives values for. -/
theorem enum_values_fit_field_width :
    ∀ e ∈ fieldValueEnums, ∀ nv ∈ e.values, nv.2 < 2 ^ e.fieldWidth := by decide

/-- Witness for C4 at enumerator `TXT_ETY` of the 4-bit `tx1s` field. -/
theorem enum_values_fit_field_width_witness :
    ctu_can_fd_tx_status_tx1s ∈ fieldValueEnums ∧
      ("TXT_ETY", 0x8) ∈ ctu_can_fd_tx_status_tx1s.values ∧
      (("TXT_ETY", 0x8) : String × Nat).2 < 2 ^ ctu_can_fd_tx_status_tx1s.fieldWidth :=
  ⟨by decide, by decide,
   enum_values_fit_field_width ctu_can_fd_tx_status_tx1s (by decide)
     ("TXT_ETY", 0x8) (by decide)⟩

/-- C5: under each of the two bit-ordering conventions separately, the field
widths of every register union sum to exactly 32 bits. -/
theorem union_layouts_are_32_bits :
    ∀ u ∈ allUnions, (widths u.le).sum = 32 ∧ (widths u.be).sum = 32 := by decide

/-- Witness for C5 at the `ctu_can_fd_btr_fd` union. -/
theorem union_layouts_are_32_bits_witness :
    ctu_can_fd_btr_fd ∈ allUnions ∧
      (widths ctu_can_fd_btr_fd.le).sum = 32 ∧ (widths ctu_can_fd_btr_fd.be).sum = 32 :=
  ⟨by decide, (union_layouts_are_32_bits ctu_can_fd_btr_fd (by decide)).1,
   (union_layouts_are_32_bits ctu_can_fd_btr_fd (by decide)).2⟩

/-- C6: the enumerator `CTU_CAN_FD_MODE` of the memory map binds the MODE
register to byte offset 0x4. -/
theorem mode_register_offset :
    canRegisters.lookup "CTU_CAN_FD_MODE" = some 0x4 := by decide

/-- C7: the event-detail enumeration keeps several distinct names for one
numeric code: `ISN_FDSTF` and `ISN_FSTF` are both 0x0, and `BIT_ERR`, `S_UP`,
`IS_SYNC`, `IS_FDSTF`, `IS_FSTF` are all 0x1. -/
theorem evnt_det_aliases :
    ("ISN_FDSTF", 0x0) ∈ ctu_can_fd_log_capt_event_2_evnt_det.values ∧
    ("ISN_FSTF", 0x0) ∈ ctu_can_fd_log_capt_event_2_evnt_det.values ∧
    ("BIT_ERR", 0x1) ∈ ctu_can_fd_log_capt_event_2_evnt_det.values ∧
    ("S_UP", 0x1) ∈ ctu_can_fd_log_capt_event_2_evnt_det.values ∧
    ("IS_SYNC", 0x1) ∈ ctu_can_fd_log_capt_event_2_evnt_det.values ∧
    ("IS_FDSTF", 0x1) ∈ ctu_can_fd_log_capt_event_2_evnt_det.values ∧
    ("IS_FSTF", 0x1) ∈ ctu_can_fd_log_capt_event_2_evnt_det.values := by decide

/-- C8: the transmit-buffer-status enumeration names ready, transmitting,
error and aborted codes 0x1, 0x2, 0x6, 0x7, and all its numeric codes are
pairwise distinct. -/
theorem tx_buffer_status_codes :
    ("TXT_RDY", 0x1) ∈ ctu_can_fd_tx_status_tx1s.values ∧
    ("TXT_TRAN", 0x2) ∈ ctu_can_fd_tx_status_tx1s.values ∧
    ("TXT_ERR", 0x6) ∈ ctu_can_fd_tx_status_tx1s.values ∧
    ("TXT_ABT", 0x7) ∈ ctu_can_fd_tx_status_tx1s.values ∧
    (ctu_can_fd_tx_status_tx1s.values.map Prod.snd).Nodup := by decide

/-- C9: the four transmit-buffer data regions share one internal layout at a
stride of 0x100: for each buffer number n, DATA_1 sits at n * 0x100, DATA_2
at n * 0x100 + 0x4 and DATA_20 at n * 0x100 + 0x4c. -/
theorem txtb_uniform_stride :
    ∀ n ∈ [1, 2, 3, 4],
      canRegisters.lookup ("CTU_CAN_FD_TXTB" ++ toString n ++ "_DATA_1")
        = some (n * 0x100) ∧
      canRegisters.lookup ("CTU_CAN_FD_TXTB" ++ toString n ++ "_DATA_2")
        = some (n * 0x100 + 0x4) ∧
      canRegisters.lookup ("CTU_CAN_FD_TXTB" ++ toString n ++ "_DATA_20")
        = some (n * 0x100 + 0x4c) := by decide

/-- Witness for C9 at buffer number 2. -/
theorem txtb_uniform_stride_witness :
    (2 : Nat) ∈ [1, 2, 3, 4] ∧
      (canRegisters.lookup ("CTU_CAN_FD_TXTB" ++ toString (2 : Nat) ++ "_DATA_1")
          = some (2 * 0x100) ∧
        canRegisters.lookup ("CTU_CAN_FD_TXTB" ++ toString (2 : Nat) ++ "_DATA_2")
          = some (2 * 0x100 + 0x4) ∧
        canRegisters.lookup ("CTU_CAN_FD_TXTB" ++ toString (2 : Nat) ++ "_DATA_20")
          = some (2 * 0x100 + 0x4c)) :=
  ⟨by decide, txtb_uniform_stride 2 (by decide)⟩

/-- C10: the four interrupt-control registers all consist of one non-reserved
12-bit field at bits 0..11 followed by a reserved 20-bit field (mirrored in
the big-endian variant), and 12 is exactly the number of named single-bit
interrupt flags of the INT_STAT register. -/
theorem int_control_registers_uniform :
    widths ctu_can_fd_int_ena_set.le = [12, 20] ∧
    widths ctu_can_fd_int_ena_clr.le = [12, 20] ∧
    widths ctu_can_fd_int_mask_set.le = [12, 20] ∧
    widths ctu_can_fd_int_mask_clr.le = [12, 20] ∧
    widths ctu_can_fd_int_ena_set.be = [20, 12] ∧
    widths ctu_can_fd_int_ena_clr.be = [20, 12] ∧
    widths ctu_can_fd_int_mask_set.be = [20, 12] ∧
    widths ctu_can_fd_int_mask_clr.be = [20, 12] ∧
    ctu_can_fd_int_ena_set.le.map Field.isReserved = [false, true] ∧
    ctu_can_fd_int_ena_clr.le.map Field.isReserved = [false, true] ∧
    ctu_can_fd_int_mask_set.le.map Field.isReserved = [false, true] ∧
    ctu_can_fd_int_mask_clr.le.map Field.isReserved = [false, true] ∧
    ((ctu_can_fd_int_stat.le.filter (fun f => ! f.isReserved)).map Field.width)
      = List.replicate 12 1 := by decide

end CtuCanFd
